import Mathlib

/-!
Shallow embedding of the agentcortex-mcp server (TypeScript sources
`src/index.ts`, remote/API variant, and `test-mcp.js`, direct/self-hosted
variant) together with proofs about the spec's claims.

Backends are modelled as oracles: a record of response functions, one per
remote API endpoint (respectively per store query), each returning
`Except String _` where `Except.error` stands for a thrown/rejected call.
Tool handlers are state-passing functions over the session state (the
single mutable `currentProjectId` variable).  A handler's result type
`Except String Envelope` distinguishes an exception escaping the handler
(`Except.error`) from a returned response envelope (`Except.ok`), which may
itself carry an error message text, mirroring the `try/catch` blocks of
the source.  Where a handler's backend interaction order matters, the
handler also returns the list of backend calls it performed.
-/

namespace AgentCortex

/-- Task status enumeration from the tool schemas
(`pending, in_progress, completed, cancelled`). -/
inductive TaskStatus where
  | pending
  | inProgress
  | completed
  | cancelled
deriving DecidableEq, Repr

/-- Task priority enumeration from the tool schemas (`low, medium, high`).
The constructor order is the domain order low < medium < high declared in
the data model. -/
inductive TaskPriority where
  | low
  | medium
  | high
deriving DecidableEq, Repr

/-- Numeric rank of a priority in the domain order (low 0, medium 1, high 2). -/
def prioRank : TaskPriority → Nat
  | .low => 0
  | .medium => 1
  | .high => 2

/-- The TEXT value stored in the `priority` column of the `tasks` table
(schema in `README.md`: `priority TEXT DEFAULT 'medium' CHECK (priority IN
('low', 'medium', 'high'))`). -/
def prioLabel : TaskPriority → String
  | .low => "low"
  | .medium => "medium"
  | .high => "high"

/-- Position of a priority's label in the ascending lexicographic order of
the TEXT column: "high" < "low" < "medium", so high 0, low 1, medium 2.
The theorem `collRank_lt_iff` certifies this encoding against the actual
label strings. -/
def collRank : TaskPriority → Nat
  | .high => 0
  | .low => 1
  | .medium => 2

/-- Project entity (fields as projected by the handlers). -/
structure Project where
  id : String
  name : String
  description : Option String
  createdAt : Nat
deriving DecidableEq, Repr

/-- Memory entity (fields as projected by the handlers).  Creation time is
modelled as a `Nat` timestamp. -/
structure Memory where
  id : String
  projectId : String
  content : String
  memoryType : Option String
  importance : Nat
  createdAt : Nat
deriving DecidableEq, Repr

/-- Task entity (fields as stored in the `tasks` table and projected by the
handlers).  `parentId` models the `parent_id` column. -/
structure Task where
  id : String
  projectId : String
  title : String
  description : Option String
  status : TaskStatus
  priority : TaskPriority
  dependencies : List String
  parentId : Option String
  createdAt : Nat
deriving DecidableEq, Repr

/-- Session state: the single mutable variable
`let currentProjectId: string | null = null` of both variants. -/
structure Session where
  currentProjectId : Option String
deriving DecidableEq, Repr

/-- A backend call performed by a handler, recorded in traces. -/
inductive BCall where
  | getCurrentProject
  | listProjects
  | setCurrentProject (projectId : String)
  | createProject (name : String)
  | storeMemory (projectId content : String)
  | searchMemory (projectId query : String) (limit : Int)
  | getMemories (projectId : String) (limit : Nat)
  | createTask (projectId title : String)
deriving DecidableEq, Repr

/-- Oracle for the remote API client (`AgentCortexAPIClient`): the response
each endpoint would deliver.  `Except.error msg` models a rejected request
(the `Error` thrown by `request`). -/
structure Api where
  createProjectResp : String → Option String → Except String Project
  listProjectsResp : Except String (List Project)
  getCurrentResp : Except String (Option Project)
  setCurrentResp : String → Except String Unit
  storeMemoryResp : String → String → Option String → Nat → Except String Memory
  searchMemoryResp : String → String → Int → Except String (List Memory)
  getMemoriesResp : String → Nat → Except String (List Memory)
  createTaskResp : String → String → Option String → TaskPriority → List String →
      Except String Task

/-- Uniform response envelope: a single text content block. -/
structure Envelope where
  text : String
deriving DecidableEq, Repr

/-- Error envelope text, mirroring `` `Error: ${error.message}` ``. -/
def errText (m : String) : String := "Error: " ++ m

/-- Abstract rendering standing for `JSON.stringify` of the projected
project fields; only which fields are projected matters to the claims. -/
def projectJson (p : Project) : String :=
  toString (p.id, p.name, p.description, p.createdAt)

/-- Abstract rendering standing for `JSON.stringify` of the projected
memory fields (id, content, type, importance, created_at). -/
def memoriesJson (ms : List Memory) : String :=
  toString (ms.map fun m => (m.id, m.content, m.memoryType, m.importance, m.createdAt))

/-- The message of the error thrown when resolution finds no project:
`'No project available. Please create a project first using create_project.'` -/
def noProjectMsg : String :=
  "No project available. Please create a project first using create_project."

/-- What step (1) of the resolution adopts: `src/index.ts` lines 213–222.
The handler reads `response.project` and adopts it only when
`project && project.id` is truthy (a present project with a non-empty id);
any error from the call is swallowed and resolution continues. -/
def adoptedFromGet (api : Api) : Option String :=
  match api.getCurrentResp with
  | .ok (some p) => if p.id ≠ "" then some p.id else none
  | .ok none => none
  | .error _ => none

/-- Function `ensureCurrentProject`, `src/index.ts` lines 207–240.  Returns the
resolved project id (or the thrown error message), the session state after
the call, and the backend calls performed, in order.  Note that in step (2)
the source assigns `currentProjectId = projectId` before awaiting
`setCurrentProject`, and a failure of that call is swallowed and falls
through to the final `throw`. -/
def ensureCurrentProject (api : Api) (s : Session) :
    Except String String × Session × List BCall :=
  match s.currentProjectId with
  | some pid => (.ok pid, s, [])
  | none =>
    match adoptedFromGet api with
    | some pid => (.ok pid, { currentProjectId := some pid }, [.getCurrentProject])
    | none =>
      match api.listProjectsResp with
      | .ok [] => (.error noProjectMsg, s, [.getCurrentProject, .listProjects])
      | .ok (p :: _) =>
        match api.setCurrentResp p.id with
        | .ok _ => (.ok p.id, { currentProjectId := some p.id },
            [.getCurrentProject, .listProjects, .setCurrentProject p.id])
        | .error _ => (.error noProjectMsg, { currentProjectId := some p.id },
            [.getCurrentProject, .listProjects, .setCurrentProject p.id])
      | .error _ => (.error noProjectMsg, s, [.getCurrentProject, .listProjects])

/-! ### Remote-variant tool handlers (`src/index.ts`) -/

/-- Effective importance passed to the backend by the `store_memory`
handler: the source computes `importance || 5`, so an absent value and the
falsy value 0 both become 5. -/
def effectiveImportance : Option Nat → Nat
  | none => 5
  | some i => if i = 0 then 5 else i

/-- Handler of `store_memory`, `src/index.ts` lines 242–280.  The whole body
is wrapped in `try/catch`, so the handler always returns an envelope
(`Except.ok`); the error branch carries `Error: ...` text. -/
def remote_store_memory (api : Api) (s : Session) (content : String)
    (memoryType : Option String) (importance : Option Nat) :
    Except String Envelope × Session :=
  match ensureCurrentProject api s with
  | (.ok pid, s1, _) =>
    match api.storeMemoryResp pid content memoryType (effectiveImportance importance) with
    | .ok m => (.ok ⟨"Memory stored successfully; ID: " ++ m.id⟩, s1)
    | .error e => (.ok ⟨errText e⟩, s1)
  | (.error e, s1, _) => (.ok ⟨errText e⟩, s1)

/-- Handler of `create_task`, `src/index.ts` lines 573–622.  Also fully
wrapped in `try/catch`. -/
def remote_create_task (api : Api) (s : Session) (title : String)
    (description : Option String) (priority : Option TaskPriority)
    (dependencies : Option (List String)) :
    Except String Envelope × Session :=
  match ensureCurrentProject api s with
  | (.ok pid, s1, _) =>
    match api.createTaskResp pid title description (priority.getD .medium)
        (dependencies.getD []) with
    | .ok t => (.ok ⟨reprStr (t.id, t.title, t.priority, t.status, t.createdAt)⟩, s1)
    | .error e => (.ok ⟨errText e⟩, s1)
  | (.error e, s1, _) => (.ok ⟨errText e⟩, s1)

/-- Handler of `create_project`, `src/index.ts` lines 403–442.  The handler
calls `apiClient.createProject` and renders the result; it never assigns
`currentProjectId` and never calls `setCurrentProject` — the session state
is returned unchanged and the trace records the only backend call made. -/
def remote_create_project (api : Api) (s : Session) (name : String)
    (description : Option String) :
    Except String Envelope × Session × List BCall :=
  match api.createProjectResp name description with
  | .ok p => (.ok ⟨projectJson p⟩, s, [.createProject name])
  | .error e => (.ok ⟨errText e⟩, s, [.createProject name])

/-- Handler of `set_current_project`, `src/index.ts` lines 444–475.  Inside
the `try` block the source first assigns `currentProjectId = projectId` and
only then awaits `apiClient.setCurrentProject(projectId)`; the `catch`
returns an error envelope without restoring the previous value. -/
def remote_set_current_project (api : Api) (s : Session) (projectId : String) :
    Except String Envelope × Session × List BCall :=
  let s1 : Session := { currentProjectId := some projectId }
  match api.setCurrentResp projectId with
  | .ok _ => (.ok ⟨"Current project set to: " ++ projectId⟩, s1,
      [.setCurrentProject projectId])
  | .error e => (.ok ⟨errText e⟩, s1, [.setCurrentProject projectId])

/-- Handler of `get_memories`, `src/index.ts` lines 321–368.  The tool schema
declares `memoryType` and `timeRange` parameters, but the handler is
`async () => ...`: it binds neither argument and always calls
`apiClient.getMemories(projectId, 20)`.  The two parameters are therefore
taken here and ignored, exactly as in the source. -/
def remote_get_memories (api : Api) (s : Session)
    (memoryType : Option String) (timeRange : Option (Option Nat × Option Nat)) :
    Except String Envelope × Session × List BCall :=
  match ensureCurrentProject api s with
  | (.ok pid, s1, tr) =>
    match api.getMemoriesResp pid 20 with
    | .ok ms => (.ok ⟨memoriesJson ms⟩, s1, tr ++ [.getMemories pid 20])
    | .error e => (.ok ⟨errText e⟩, s1, tr ++ [.getMemories pid 20])
  | (.error e, s1, tr) => (.ok ⟨errText e⟩, s1, tr)

/-! ### search_memory parameter schemas and dispatch -/

/-- Remote-variant `search_memory` limit schema, `src/index.ts` line 288:
`z.number().min(1).max(50).optional()`. -/
def remoteSearchLimitOk : Option Int → Bool
  | none => true
  | some l => 1 ≤ l && l ≤ 50

/-- Direct-variant `search_memory` limit schema, `test-mcp.js` line 147:
`z.number().min(1).max(100).default(10)`. -/
def directSearchLimitOk : Option Int → Bool
  | none => true
  | some l => 1 ≤ l && l ≤ 100

/-- Effective limit used by the remote handler: `limit || 10`
(`src/index.ts` line 296). -/
def remoteSearchLimit : Option Int → Int
  | none => 10
  | some l => if l = 0 then 10 else l

/-- Effective limit in the direct variant: supplied by zod's
`.default(10)` when absent. -/
def directSearchLimit : Option Int → Int
  | none => 10
  | some l => l

/-- Dispatch of a remote `search_memory` call: the zod schema is checked by
the MCP dispatcher before the handler runs; on violation the call fails
with a validation error and no backend call is performed (empty trace). -/
def remote_search_memory_dispatch (api : Api) (s : Session) (query : String)
    (limit : Option Int) :
    Except String Envelope × Session × List BCall :=
  if query.length ≥ 1 ∧ remoteSearchLimitOk limit = true then
    match ensureCurrentProject api s with
    | (.ok pid, s1, tr) =>
      match api.searchMemoryResp pid query (remoteSearchLimit limit) with
      | .ok ms => (.ok ⟨memoriesJson ms⟩, s1,
          tr ++ [.searchMemory pid query (remoteSearchLimit limit)])
      | .error e => (.ok ⟨errText e⟩, s1,
          tr ++ [.searchMemory pid query (remoteSearchLimit limit)])
    | (.error e, s1, tr) => (.ok ⟨errText e⟩, s1, tr)
  else
    (.error "ValidationError", s, [])

/-! ### Direct-variant tool handlers (`test-mcp.js`, self-hosted build) -/

/-- Handler of `list_projects`, `test-mcp.js` lines 461–476.  The handler has
no `try/catch`; on a store error it executes `throw error`, so the
exception escapes the handler (`Except.error`). -/
def direct_list_projects (storeResp : Except String (List Project)) :
    Except String Envelope :=
  match storeResp with
  | .ok ps => .ok ⟨toString (ps.map fun p => (p.id, p.name, p.description, p.createdAt))⟩
  | .error e => .error e

/-- Handler of `create_task`, `test-mcp.js` lines 528–559.  No `try/catch`:
both the missing-current-project check and a store error are thrown
(`Except.error`). -/
def direct_create_task (s : Session)
    (insertResp : String → String → Except String Task) (title : String) :
    Except String Envelope :=
  match s.currentProjectId with
  | none => .error "No current project set. Please create or select a project first."
  | some pid =>
    match insertResp pid title with
    | .ok t => .ok ⟨"Task created: " ++ t.title ++ " (" ++ t.id ++ ")"⟩
    | .error e => .error e

/-- Executable model of JavaScript `String.prototype.trim`: drop leading
and trailing whitespace. -/
def strTrim (s : String) : String :=
  ⟨((s.data.dropWhile Char.isWhitespace).reverse.dropWhile
      Char.isWhitespace).reverse⟩

/-- Store-insert outcome for `create_project` in the direct variant:
either the created row, a unique-name violation (Postgres code 23505), or
another store error. -/
inductive InsertOutcome where
  | created (p : Project)
  | duplicateName
  | storeError (msg : String)

/-- Handler of `create_project`, `test-mcp.js` lines 319–375.  The body is
wrapped in `try/catch`, every branch returns an envelope, and on success
the source executes `currentProjectId = data.id` before returning the
"created and set as current" envelope. -/
def direct_create_project (s : Session)
    (insertResp : String → Option String → InsertOutcome)
    (name : String) (description : Option String) :
    (Except String Envelope) × Session :=
  if strTrim name = "" then
    (.ok ⟨"Error: Project name cannot be empty."⟩, s)
  else
    match insertResp (strTrim name) (description.map strTrim) with
    | .created data =>
      (.ok ⟨"Project created and set as current; ID: " ++ data.id⟩,
        { currentProjectId := some data.id })
    | .duplicateName =>
      (.ok ⟨"Error: A project named " ++ name ++ " already exists. Please choose a different name."⟩, s)
    | .storeError e => (.ok ⟨"Error creating project: " ++ e⟩, s)

/-- One row of the insert payload built by `break_down_task`
(`test-mcp.js` lines 686–693): title, description and priority from the
subtask template spread together with `project_id`, `status: 'pending'` and
`dependencies: [taskId]`.  The payload carries no `parent_id` key. -/
structure TaskInsert where
  title : String
  description : String
  priority : TaskPriority
  projectId : String
  status : TaskStatus
  dependencies : List String
deriving DecidableEq, Repr

/-- The three subtask templates of `break_down_task`
(`test-mcp.js` lines 668–684): research and implement inherit the parent's
priority, test is fixed to `medium`. -/
def breakdownTemplates (task : Task) : List (String × String × TaskPriority) :=
  [("Research: " ++ task.title,
      "Research and gather requirements for " ++ task.title, task.priority),
   ("Implement: " ++ task.title,
      "Core implementation of " ++ task.title, task.priority),
   ("Test: " ++ task.title,
      "Test and validate " ++ task.title, .medium)]

/-- The full insert payload of `break_down_task` for parent `task`. -/
def breakdownInsertRows (task : Task) (taskId pid : String) : List TaskInsert :=
  (breakdownTemplates task).map fun st =>
    { title := st.1, description := st.2.1, priority := st.2.2,
      projectId := pid, status := .pending, dependencies := [taskId] }

/-- The task row stored for one insert payload row: the store assigns the
id and creation time; the `parent_id` column is not in the payload and is
left at its default, null. -/
def insertedTask (r : TaskInsert) (id : String) (now : Nat) : Task :=
  { id := id, projectId := r.projectId, title := r.title,
    description := some r.description, status := r.status,
    priority := r.priority, dependencies := r.dependencies,
    parentId := none, createdAt := now }

/-- Handler of `break_down_task`, `test-mcp.js` lines 652–705.  No
`try/catch`: a missing current project and store errors are thrown.  The
parent task is fetched with `.eq('id', taskId).single()`, modelled as
`List.find?` over the task table.  `ids` and `now` model the ids and
creation time the store assigns to the inserted rows.  Returns the created
rows together with the summary envelope. -/
def direct_break_down_task (s : Session) (table : List Task)
    (ids : List String) (now : Nat) (taskId : String) :
    Except String (List Task × Envelope) :=
  match s.currentProjectId with
  | none => .error "No current project set. Please create or select a project first."
  | some pid =>
    match table.find? (fun t => t.id = taskId) with
    | none => .error "PGRST116: task not found"
    | some task =>
      let created := (breakdownInsertRows task taskId pid).zipWith
        (fun r id => insertedTask r id now) ids
      .ok (created,
        ⟨"Task broken down into " ++ toString created.length ++ " subtasks"⟩)

/-- Candidate set of `suggest_next_task`, `test-mcp.js` lines 622–626: rows of
the task table with the session's project id (`currentProjectId || 'default'`)
and status in `['pending', 'in_progress']`. -/
def suggestCandidates (table : List Task) (s : Session) : List Task :=
  table.filter fun t =>
    t.projectId = s.currentProjectId.getD "default" ∧
      (t.status = .pending ∨ t.status = .inProgress)

/-- Comparator of the store's `ORDER BY priority DESC, created_at ASC`:
`b` strictly precedes `a` when its priority label is lexicographically
greater, or the labels are equal and `b` was created strictly earlier.
The `priority` column is TEXT (`README.md` tasks schema), so the store's
descending order on it is the descending lexicographic order of the labels:
"medium" > "low" > "high" — not the domain order of the enumeration.
`collRank` encodes that collation (certified by `collRank_lt_iff`). -/
def strictlyBetter (b a : Task) : Bool :=
  collRank a.priority < collRank b.priority ||
    (collRank b.priority = collRank a.priority && b.createdAt < a.createdAt)

/-- Fold step selecting the first row of the ordered result: keep the
current best unless the next row strictly precedes it (which matches the
stable order with first-occurrence tie-break). -/
def bestStep (acc : Option Task) (t : Task) : Option Task :=
  match acc with
  | none => some t
  | some a => if strictlyBetter t a then some t else some a

/-- Selection of `suggest_next_task`, `test-mcp.js` lines 618–651: the first
row of the candidates ordered by priority descending then creation time
ascending (`.limit(1)`), or `none` when there are no candidates (the
handler then answers "No pending tasks found."). -/
def suggestNextTask (table : List Task) (s : Session) : Option Task :=
  (suggestCandidates table s).foldl bestStep none

/-! ### Remote API client request path (`src/index.ts` lines 17–70) -/

/-- An HTTP response as seen by `request`: `ok` is the 2xx flag,
`statusLine` stands for `` `${response.status} ${response.statusText}` ``,
`messageField` is the optional `message` field of a parsed error body
(`none` when the body cannot be parsed or has no message), and `jsonBody`
is the result of `response.json()` on the success path. -/
structure HttpResp where
  ok : Bool
  statusLine : String
  messageField : Option String
  jsonBody : Except String String
deriving Repr

/-- The eventual outcome of the fire-and-forget tracking fetch. -/
inductive TrackOutcome where
  | delivered
  | failed (msg : String)
deriving DecidableEq, Repr

/-- Function `trackUsage`, `src/index.ts` lines 60–70.  The tracking fetch is
dispatched and its promise is given only a `.catch(() => {})` handler, so
whatever the outcome of the tracking call, the function returns
successfully and nothing of the outcome is observable by the caller. -/
def trackUsage (outcome : TrackOutcome) : Except String Unit :=
  match outcome with
  | .delivered => .ok ()
  | .failed _ => .ok ()

/-- Function `request`, `src/index.ts` lines 17–49.  On a non-2xx response the error
message is the body's `message` field when one can be parsed, otherwise the
status line; the resulting `Error` is thrown.  On a 2xx response the
source awaits `trackUsage` (which never rejects) and returns the parsed
body.  A transport-level failure of the fetch itself is modelled by
`fetchResult = Except.error`. -/
def request (fetchResult : Except String HttpResp) (tr : TrackOutcome) :
    Except String String :=
  match fetchResult with
  | .error e => .error e
  | .ok resp =>
    if resp.ok then
      match trackUsage tr with
      | .ok _ => resp.jsonBody
      | .error e => .error e
    else
      .error (resp.messageField.getD ("API request failed: " ++ resp.statusLine))

/-- Whether a handler result is an exception escaping the handler rather
than a returned envelope. -/
def isEscape : Except String Envelope → Bool
  | .ok _ => false
  | .error _ => true

/-! ### Ordering predicate for suggest_next_task -/

/-- Task `t` is at least as early in the store's
`ORDER BY priority DESC, created_at ASC` result as task `u`: its priority
label is lexicographically at least as great (collation order `collRank`),
or the labels are equal and its creation time is no later.  This is
exactly `strictlyBetter u t = false`. -/
def dominates (t u : Task) : Prop :=
  collRank u.priority ≤ collRank t.priority ∧
    (collRank u.priority = collRank t.priority → t.createdAt ≤ u.createdAt)

/-! ### Concrete instances used by witnesses and counterexamples -/

/-- Demo project used by concrete oracle instances. -/
def demoProject : Project :=
  { id := "p1", name := "Alpha", description := none, createdAt := 0 }

/-- Demo memory of type `note` used by concrete oracle instances. -/
def demoNote : Memory :=
  { id := "m1", projectId := "p1", content := "note content",
    memoryType := some "note", importance := 5, createdAt := 1 }

/-- Base oracle whose endpoints all reject; concrete instances override
the endpoints they exercise. -/
def apiBase : Api where
  createProjectResp := fun _ _ => .error "unused"
  listProjectsResp := .error "unused"
  getCurrentResp := .error "unused"
  setCurrentResp := fun _ => .error "unused"
  storeMemoryResp := fun _ _ _ _ => .error "unused"
  searchMemoryResp := fun _ _ _ => .error "unused"
  getMemoriesResp := fun _ _ => .error "unused"
  createTaskResp := fun _ _ _ _ _ => .error "unused"

/-- Oracle where creating a project succeeds with `demoProject`. -/
def apiCreateOk : Api :=
  { apiBase with createProjectResp := fun _ _ => .ok demoProject }

/-- Oracle with no marked current project, one listed project, and a
working current-project marker. -/
def apiListOne : Api :=
  { apiBase with
    getCurrentResp := .ok none
    listProjectsResp := .ok [demoProject]
    setCurrentResp := fun _ => .ok () }

/-- Oracle with no marked current project and zero projects. -/
def apiEmpty : Api :=
  { apiBase with
    getCurrentResp := .ok none
    listProjectsResp := .ok [] }

/-- Oracle whose current-project marker update always fails. -/
def apiSetFail : Api :=
  { apiBase with setCurrentResp := fun _ => .error "backend down" }

/-- Oracle whose memory listing returns the single memory `demoNote`. -/
def apiMems : Api :=
  { apiBase with getMemoriesResp := fun _ _ => .ok [demoNote] }

/-- Demo parent task used by the breakdown instances. -/
def parentTask : Task :=
  { id := "t0", projectId := "p1", title := "Build auth", description := none,
    status := .pending, priority := .high, dependencies := [], parentId := none,
    createdAt := 0 }

/-- Demo candidate of priority medium, pending, created at time 5. -/
def demoTaskA : Task :=
  { id := "a", projectId := "p1", title := "A", description := none,
    status := .pending, priority := .medium, dependencies := [], parentId := none,
    createdAt := 5 }

/-- Demo candidate of priority high, in progress, created at time 7. -/
def demoTaskB : Task :=
  { id := "b", projectId := "p1", title := "B", description := none,
    status := .inProgress, priority := .high, dependencies := [], parentId := none,
    createdAt := 7 }

/-- Demo task table used by the suggest_next_task theorems: among the
candidates of project `p1` there is one medium task and two high tasks,
and one completed high task that is no candidate. -/
def demoTasks : List Task :=
  [demoTaskA,
   demoTaskB,
   { id := "c", projectId := "p1", title := "C", description := none,
     status := .completed, priority := .high, dependencies := [], parentId := none,
     createdAt := 1 },
   { id := "d", projectId := "p1", title := "D", description := none,
     status := .pending, priority := .high, dependencies := [], parentId := none,
     createdAt := 9 }]

/-! ## Claim theorems -/

/-- C8: for every Remote-backend call, the usage-tracking emission never
fails the originating call: whatever the eventual outcome of the tracking
fetch, `trackUsage` completes successfully (its only handler is
`.catch(() => \x7b\x7d)`, which silently discards failures), and the result of
the originating `request` is independent of the tracking outcome. -/
theorem track_usage_never_fails_request (f : Except String HttpResp)
    (o o' : TrackOutcome) :
    trackUsage o = .ok () ∧ request f o = request f o' := by
  constructor
  · cases o <;> rfl
  · cases f with
    | error e => rfl
    | ok resp => cases o <;> cases o' <;> rfl

/-- C10: `set_current_project` is not atomic on error.  The handler
overwrites the session's current-project reference with the requested id
before the backend call; when the backend rejects, the handler returns an
error envelope while the local reference keeps the new id. -/
theorem set_current_project_not_atomic (api : Api) (s : Session)
    (projectId e : String) (h : api.setCurrentResp projectId = .error e) :
    remote_set_current_project api s projectId =
      (.ok ⟨errText e⟩, { currentProjectId := some projectId },
        [.setCurrentProject projectId]) := by
  simp [remote_set_current_project, h]

/-- Witness for C10 at a concrete oracle whose marker update fails. -/
theorem set_current_project_not_atomic_witness :
    remote_set_current_project apiSetFail { currentProjectId := some "old" } "p9" =
      (.ok ⟨errText "backend down"⟩, { currentProjectId := some "p9" },
        [.setCurrentProject "p9"]) :=
  set_current_project_not_atomic apiSetFail { currentProjectId := some "old" }
    "p9" "backend down" rfl

/-- C1 counterexample: in the remote variant, a successful
`create_project("Alpha")` leaves the session's current-project reference
unchanged (still unset) and performs no `setCurrentProject` backend call,
so the reference is not set to the new project's id `p1`. -/
theorem create_project_remote_leaves_current_unset :
    remote_create_project apiCreateOk { currentProjectId := none } "Alpha" none =
      (.ok ⟨projectJson demoProject⟩, { currentProjectId := none },
        [.createProject "Alpha"]) ∧
    (remote_create_project apiCreateOk { currentProjectId := none }
        "Alpha" none).2.1.currentProjectId ≠ some demoProject.id := by
  constructor
  · rfl
  · simp [remote_create_project, apiCreateOk, apiBase]

/-- C1 (amended): only the direct (self-hosted) variant sets the session's
current-project reference as a side effect of a successful
`create_project`; on a successful insert the handler assigns the new
project's id to `currentProjectId`.  (The remote variant's handler leaves
the reference untouched and never calls `setCurrent`.) -/
theorem create_project_direct_sets_current (s : Session)
    (ins : String → Option String → InsertOutcome) (name : String)
    (descr : Option String) (data : Project)
    (hname : strTrim name ≠ "")
    (hins : ins (strTrim name) (descr.map strTrim) = .created data) :
    (direct_create_project s ins name descr).2.currentProjectId = some data.id ∧
    (direct_create_project s ins name descr).1 =
      .ok ⟨"Project created and set as current; ID: " ++ data.id⟩ := by
  simp [direct_create_project, hname, hins]

/-- Witness for C1's amended theorem at a concrete insert oracle. -/
theorem create_project_direct_sets_current_witness :
    (direct_create_project { currentProjectId := none }
        (fun _ _ => .created demoProject) "Alpha" none).2.currentProjectId =
      some demoProject.id :=
  (create_project_direct_sets_current { currentProjectId := none }
    (fun _ _ => .created demoProject) "Alpha" none demoProject
    (by decide) rfl).1

/-- C3 counterexample: in the direct variant, a store failure in the
`list_projects` handler and the missing-current-project check in the
`create_task` handler are thrown, not converted into a response envelope:
the exception escapes the handler. -/
theorem direct_handler_error_escapes :
    direct_list_projects (.error "database unreachable") =
      .error "database unreachable" ∧
    direct_create_task { currentProjectId := none } (fun _ _ => .error "unused")
        "Build auth" =
      .error "No current project set. Please create or select a project first." := by
  exact ⟨rfl, rfl⟩

/-- C3 (amended): every remote-variant handler converts every error raised
while handling the call into the uniform envelope — for all backend
outcomes and session states, `store_memory`, `create_task`,
`create_project` and `set_current_project` return an `Except.ok` envelope,
never an escaping exception.  (In the direct variant, several handlers
rethrow instead.) -/
theorem remote_handlers_never_escape (api : Api) (s : Session)
    (content : String) (memoryType : Option String) (importance : Option Nat)
    (title : String) (description : Option String)
    (priority : Option TaskPriority) (deps : Option (List String))
    (name : String) (pd : Option String) (projectId : String) :
    isEscape (remote_store_memory api s content memoryType importance).1 = false ∧
    isEscape (remote_create_task api s title description priority deps).1 = false ∧
    isEscape (remote_create_project api s name pd).1 = false ∧
    isEscape (remote_set_current_project api s projectId).1 = false := by
  refine ⟨?_, ?_, ?_, ?_⟩
  · unfold remote_store_memory
    rcases h : ensureCurrentProject api s with ⟨r, s1, tr⟩
    cases r with
    | ok pid =>
      cases hm : api.storeMemoryResp pid content memoryType
          (effectiveImportance importance) <;> simp [hm, isEscape]
    | error e => simp [isEscape]
  · unfold remote_create_task
    rcases h : ensureCurrentProject api s with ⟨r, s1, tr⟩
    cases r with
    | ok pid =>
      cases hm : api.createTaskResp pid title description (priority.getD .medium)
          (deps.getD []) <;> simp [hm, isEscape]
    | error e => simp [isEscape]
  · unfold remote_create_project
    cases h : api.createProjectResp name pd <;> simp [h, isEscape]
  · unfold remote_set_current_project
    cases h : api.setCurrentResp projectId <;> simp [h, isEscape]

/-- C7 (code defect): the remote `get_memories` handler ignores both the
`memoryType` and the `timeRange` parameter its schema declares — its
result is independent of them — and at the concrete failing input
(current project `p1`, filter `memoryType = "code"`, backend holding only
a memory of type `note`) it requests a fixed limit of 20 with no filter
and returns the non-matching memory. -/
theorem remote_get_memories_ignores_filters :
    (∀ (api : Api) (s : Session) mt tr mt' tr',
      remote_get_memories api s mt tr = remote_get_memories api s mt' tr') ∧
    remote_get_memories apiMems { currentProjectId := some "p1" }
        (some "code") none =
      (.ok ⟨memoriesJson [demoNote]⟩, { currentProjectId := some "p1" },
        [.getMemories "p1" 20]) ∧
    demoNote.memoryType ≠ some "code" := by
  refine ⟨fun api s mt tr mt' tr' => rfl, rfl, by simp [demoNote]⟩

/-- C2: when no current-project reference is held, resolution proceeds in
the fixed order: (1) ask the backend for a previously-marked current
project and adopt it when present; (2) otherwise list all projects, adopt
the first and mark it current via `setCurrent`; (3) when no projects
exist, fail with the no-project error whose message names
`create_project`.  The returned traces certify the order of the backend
calls performed in each case. -/
theorem ensure_current_project_resolution_order (api : Api) (s : Session)
    (h : s.currentProjectId = none) :
    (∀ p : Project, api.getCurrentResp = .ok (some p) → p.id ≠ "" →
      ensureCurrentProject api s =
        (.ok p.id, { currentProjectId := some p.id }, [.getCurrentProject])) ∧
    (∀ (p : Project) (ps : List Project), adoptedFromGet api = none →
      api.listProjectsResp = .ok (p :: ps) → api.setCurrentResp p.id = .ok () →
      ensureCurrentProject api s =
        (.ok p.id, { currentProjectId := some p.id },
          [.getCurrentProject, .listProjects, .setCurrentProject p.id])) ∧
    (adoptedFromGet api = none → api.listProjectsResp = .ok [] →
      ensureCurrentProject api s =
        (.error noProjectMsg, s, [.getCurrentProject, .listProjects]) ∧
      List.IsInfix "create_project".toList noProjectMsg.toList) := by
  refine ⟨?_, ?_, ?_⟩
  · intro p hget hid
    have hadopt : adoptedFromGet api = some p.id := by
      simp [adoptedFromGet, hget, hid]
    simp [ensureCurrentProject, h, hadopt]
  · intro p ps hadopt hlist hset
    simp [ensureCurrentProject, h, hadopt, hlist, hset]
  · intro hadopt hlist
    refine ⟨by simp [ensureCurrentProject, h, hadopt, hlist], ?_⟩
    decide

/-- Witness for C2: at a concrete oracle with no marked current project and
one listed project, resolution adopts and marks the listed project; at an
oracle with zero projects it fails with the message naming
`create_project`. -/
theorem ensure_current_project_resolution_order_witness :
    ensureCurrentProject apiListOne { currentProjectId := none } =
      (.ok "p1", { currentProjectId := some "p1" },
        [.getCurrentProject, .listProjects, .setCurrentProject "p1"]) ∧
    (ensureCurrentProject apiEmpty { currentProjectId := none } =
      (.error noProjectMsg, { currentProjectId := none },
        [.getCurrentProject, .listProjects]) ∧
      List.IsInfix "create_project".toList noProjectMsg.toList) :=
  ⟨(ensure_current_project_resolution_order apiListOne
      { currentProjectId := none } rfl).2.1 demoProject [] rfl rfl rfl,
   (ensure_current_project_resolution_order apiEmpty
      { currentProjectId := none } rfl).2.2 rfl rfl⟩

/-- C9: resolution is idempotent.  Whenever a call to
`ensureCurrentProject` succeeds and returns a project id, a second call on
the resulting session state with no intervening `setCurrent` returns the
same id and the same state and performs no backend call at all (its trace
is empty). -/
theorem ensure_current_project_idempotent (api : Api) (s : Session)
    (pid : String) (s' : Session) (tr : List BCall)
    (h : ensureCurrentProject api s = (.ok pid, s', tr)) :
    ensureCurrentProject api s' = (.ok pid, s', []) := by
  have hcur : s'.currentProjectId = some pid := by
    cases hc : s.currentProjectId with
    | some q =>
      simp [ensureCurrentProject, hc] at h
      simp_all
    | none =>
      cases ha : adoptedFromGet api with
      | some q =>
        simp [ensureCurrentProject, hc, ha] at h
        simp_all [← h.2.1]
      | none =>
        cases hl : api.listProjectsResp with
        | ok ps =>
          cases ps with
          | nil => simp [ensureCurrentProject, hc, ha, hl] at h
          | cons p rest =>
            cases hs : api.setCurrentResp p.id with
            | ok u =>
              simp [ensureCurrentProject, hc, ha, hl, hs] at h
              simp_all [← h.2.1]
            | error e =>
              simp [ensureCurrentProject, hc, ha, hl, hs] at h
        | error e => simp [ensureCurrentProject, hc, ha, hl] at h
  unfold ensureCurrentProject
  rw [hcur]

/-- Witness for C9: after resolution succeeded against the one-project
oracle, a second call returns the same project with an empty trace. -/
theorem ensure_current_project_idempotent_witness :
    ensureCurrentProject apiListOne { currentProjectId := some "p1" } =
      (.ok "p1", { currentProjectId := some "p1" }, []) :=
  ensure_current_project_idempotent apiListOne { currentProjectId := none }
    "p1" { currentProjectId := some "p1" }
    [.getCurrentProject, .listProjects, .setCurrentProject "p1"] rfl

/-- C6 counterexample: the limit 60 lies inside the claimed inclusive
range 1–100, yet the remote variant's `search_memory` schema
(`min(1).max(50)`) rejects it, and dispatching such a call fails with a
validation error before any backend call (empty trace).  The direct
variant's schema does accept it. -/
theorem remote_search_limit_rejects_inside_100 :
    (1 ≤ (60 : Int) ∧ (60 : Int) ≤ 100) ∧
    remoteSearchLimitOk (some 60) = false ∧
    directSearchLimitOk (some 60) = true ∧
    remote_search_memory_dispatch apiBase { currentProjectId := some "p1" }
        "query" (some 60) =
      (.error "ValidationError", { currentProjectId := some "p1" }, []) := by
  refine ⟨by decide, by decide, by decide, ?_⟩
  simp [remote_search_memory_dispatch, remoteSearchLimitOk]

/-- C6 (amended): the remote variant's `search_memory` accepts exactly the
limits in the inclusive range 1–50 and the direct variant exactly 1–100;
in both variants an absent limit becomes 10; and a limit the remote schema
rejects fails with a validation error before any backend call. -/
theorem search_limit_schemas (l : Int) (api : Api) (s : Session) (q : String) :
    (remoteSearchLimitOk (some l) = true ↔ 1 ≤ l ∧ l ≤ 50) ∧
    (directSearchLimitOk (some l) = true ↔ 1 ≤ l ∧ l ≤ 100) ∧
    remoteSearchLimit none = 10 ∧ directSearchLimit none = 10 ∧
    (remoteSearchLimitOk (some l) = false →
      remote_search_memory_dispatch api s q (some l) =
        (.error "ValidationError", s, [])) := by
  refine ⟨?_, ?_, rfl, rfl, ?_⟩
  · simp [remoteSearchLimitOk]
  · simp [directSearchLimitOk]
  · intro hbad
    simp [remote_search_memory_dispatch, hbad]

/-- Witness for C6's amended theorem: the inclusive range facts at the
concrete limit 50 and rejection of the remote dispatch at the concrete
limit 60. -/
theorem search_limit_schemas_witness :
    remoteSearchLimitOk (some 50) = true ∧
    directSearchLimitOk (some 50) = true ∧
    remote_search_memory_dispatch apiBase { currentProjectId := none }
        "query" (some 60) =
      (.error "ValidationError", { currentProjectId := none }, []) :=
  ⟨(search_limit_schemas 50 apiBase { currentProjectId := none } "query").1.mpr
      (by decide),
   (search_limit_schemas 50 apiBase { currentProjectId := none } "query").2.1.mpr
      (by decide),
   (search_limit_schemas 60 apiBase { currentProjectId := none } "query").2.2.2.2
      (by decide)⟩

/-- C4 counterexample: breaking down the concrete parent task `t0` creates
three subtasks whose `parent_id` is not set — the stored rows carry
`parentId = none`, not `some "t0"` as the claim states. -/
theorem breakdown_subtask_parent_not_set :
    ∃ created env,
      direct_break_down_task { currentProjectId := some "p1" } [parentTask]
          ["s1", "s2", "s3"] 1 "t0" = .ok (created, env) ∧
      created.map (fun c => c.parentId) = [none, none, none] ∧
      ¬ ∀ c ∈ created, c.parentId = some "t0" :=
  ⟨_, _, rfl, by decide, by decide⟩

/-- C4 (amended): every successful `break_down_task(taskId)` call creates
exactly 3 subtasks, each with `dependencies = [taskId]`, owned by the
current project and pending; the research and implement subtasks inherit
the parent's priority and the test subtask's priority is fixed to medium.
The subtasks' `parentId` is not set (the insert payload has no
`parent_id`, so the column keeps its null default). -/
theorem break_down_task_amended (s : Session) (table : List Task)
    (i1 i2 i3 : String) (now : Nat) (taskId pid : String) (task : Task)
    (hs : s.currentProjectId = some pid)
    (hfind : table.find? (fun t => t.id = taskId) = some task) :
    ∃ created env,
      direct_break_down_task s table [i1, i2, i3] now taskId =
        .ok (created, env) ∧
      created.length = 3 ∧
      (∀ c ∈ created, c.dependencies = [taskId] ∧ c.parentId = none ∧
        c.projectId = pid ∧ c.status = .pending) ∧
      created.map (fun c => c.priority) = [task.priority, task.priority, .medium] := by
  have hrows : breakdownInsertRows task taskId pid =
      [{ title := "Research: " ++ task.title,
         description := "Research and gather requirements for " ++ task.title,
         priority := task.priority, projectId := pid, status := .pending,
         dependencies := [taskId] },
       { title := "Implement: " ++ task.title,
         description := "Core implementation of " ++ task.title,
         priority := task.priority, projectId := pid, status := .pending,
         dependencies := [taskId] },
       { title := "Test: " ++ task.title,
         description := "Test and validate " ++ task.title,
         priority := .medium, projectId := pid, status := .pending,
         dependencies := [taskId] }] := by
    simp [breakdownInsertRows, breakdownTemplates]
  have heq : direct_break_down_task s table [i1, i2, i3] now taskId =
      .ok ((breakdownInsertRows task taskId pid).zipWith
            (fun r id => insertedTask r id now) [i1, i2, i3],
          ⟨"Task broken down into " ++
            toString ((breakdownInsertRows task taskId pid).zipWith
              (fun r id => insertedTask r id now) [i1, i2, i3]).length ++
            " subtasks"⟩) := by
    unfold direct_break_down_task
    rw [hs, hfind]
  refine ⟨_, _, heq, ?_, ?_, ?_⟩
  · rw [hrows]
    rfl
  · intro c hc
    rw [hrows] at hc
    simp [List.zipWith, insertedTask] at hc
    rcases hc with h | h | h <;> subst h <;> simp [insertedTask]
  · rw [hrows]
    simp [List.zipWith, insertedTask]

/-- Witness for C4's amended theorem at the concrete parent task `t0`
(priority high): the created subtasks' priorities are high, high, medium. -/
theorem break_down_task_amended_witness :
    ∃ created env,
      direct_break_down_task { currentProjectId := some "p1" } [parentTask]
          ["s1", "s2", "s3"] 1 "t0" = .ok (created, env) ∧
      created.length = 3 ∧
      (∀ c ∈ created, c.dependencies = ["t0"] ∧ c.parentId = none ∧
        c.projectId = "p1" ∧ c.status = .pending) ∧
      created.map (fun c => c.priority) = [.high, .high, .medium] :=
  break_down_task_amended { currentProjectId := some "p1" } [parentTask]
    "s1" "s2" "s3" 1 "t0" "p1" parentTask rfl rfl

/-! ### Ordering lemmas for suggest_next_task -/

/-- Certification of the `collRank` encoding: for any two priorities, the
rank order agrees with the lexicographic order of the actual TEXT labels
stored in the `priority` column. -/
theorem collRank_lt_iff (a b : TaskPriority) :
    collRank a < collRank b ↔ (prioLabel a).data < (prioLabel b).data := by
  cases a <;> cases b <;> decide

/-- A task dominates everything a task it dominates strictly precedes. -/
theorem dominates_trans_better (t x a : Task) (h1 : dominates t x)
    (h2 : strictlyBetter x a = true) : dominates t a := by
  unfold dominates at *
  unfold strictlyBetter at h2
  simp only [Bool.or_eq_true, decide_eq_true_eq, Bool.and_eq_true] at h2
  obtain ⟨hx1, hx2⟩ := h1
  rcases h2 with h | ⟨heq, hlt⟩
  · exact ⟨by omega, fun he => by omega⟩
  · refine ⟨by omega, fun he => ?_⟩
    have h3 := hx2 (by omega)
    omega

/-- A task dominating `a` also dominates anything that fails to strictly
precede `a`. -/
theorem dominates_of_not_better (t x a : Task) (h1 : dominates t a)
    (h2 : strictlyBetter x a = false) : dominates t x := by
  unfold dominates at *
  unfold strictlyBetter at h2
  simp only [Bool.or_eq_false_iff, Bool.and_eq_false_iff,
    decide_eq_false_iff_not] at h2
  obtain ⟨ha1, ha2⟩ := h1
  obtain ⟨hb1, hb2⟩ := h2
  refine ⟨by omega, fun he => ?_⟩
  have h3 := ha2 (by omega)
  rcases hb2 with h4 | h4
  · omega
  · omega

/-- Folding `bestStep` from a seed yields a result that is the seed or a
list element, dominates the seed, and dominates every list element. -/
theorem bestStep_foldl_some (l : List Task) :
    ∀ a : Task, ∃ t, l.foldl bestStep (some a) = some t ∧
      (t = a ∨ t ∈ l) ∧ dominates t a ∧ ∀ u ∈ l, dominates t u := by
  induction l with
  | nil =>
    intro a
    exact ⟨a, rfl, Or.inl rfl, ⟨le_refl _, fun _ => le_refl _⟩, by simp⟩
  | cons x xs ih =>
    intro a
    by_cases hb : strictlyBetter x a = true
    · obtain ⟨t, heq, hmem, hdom, hall⟩ := ih x
      refine ⟨t, ?_, ?_, ?_, ?_⟩
      · simpa [List.foldl, bestStep, hb] using heq
      · rcases hmem with h | h
        · exact Or.inr (by simp [h])
        · exact Or.inr (by simp [h])
      · exact dominates_trans_better t x a hdom hb
      · intro u hu
        rcases List.mem_cons.mp hu with h | h
        · exact h ▸ hdom
        · exact hall u h
    · rw [Bool.not_eq_true] at hb
      obtain ⟨t, heq, hmem, hdom, hall⟩ := ih a
      refine ⟨t, ?_, ?_, hdom, ?_⟩
      · simpa [List.foldl, bestStep, hb] using heq
      · rcases hmem with h | h
        · exact Or.inl h
        · exact Or.inr (by simp [h])
      · intro u hu
        rcases List.mem_cons.mp hu with h | h
        · exact h ▸ dominates_of_not_better t x a hdom hb
        · exact hall u h

/-- C5 counterexample: on the concrete table `demoTasks`, the pending
high-priority task `demoTaskB` is a candidate, yet the handler suggests
the medium task `demoTaskA` — the `priority` column is TEXT and the
store's `ORDER BY priority DESC` puts "medium" first lexicographically —
so the suggestion does not have the highest priority in the domain order. -/
theorem suggest_next_task_returns_medium_over_high :
    suggestNextTask demoTasks { currentProjectId := some "p1" } = some demoTaskA ∧
    demoTaskA.priority = .medium ∧
    demoTaskB ∈ suggestCandidates demoTasks { currentProjectId := some "p1" } ∧
    demoTaskB.priority = .high ∧
    prioRank demoTaskA.priority < prioRank demoTaskB.priority := by
  refine ⟨by decide, rfl, by decide, rfl, by decide⟩

/-- C5 (amended): `suggest_next_task` answers no-task exactly when no task
of the current project is pending or in progress, and any suggested task
is a pending or in-progress task of the project (never completed or
cancelled) that is first in the store's `ORDER BY priority DESC,
created_at ASC` result — maximal in the descending lexicographic order of
the TEXT priority labels ("medium" > "low" > "high", the collation order
`collRank`, not the domain's priority order), ties broken by earliest
creation time. -/
theorem suggest_next_task_amended (table : List Task) (s : Session) :
    (suggestNextTask table s = none ↔ suggestCandidates table s = []) ∧
    (∀ t, suggestNextTask table s = some t →
      t ∈ suggestCandidates table s ∧
      (t.status = .pending ∨ t.status = .inProgress) ∧
      t.status ≠ .completed ∧ t.status ≠ .cancelled ∧
      t.projectId = s.currentProjectId.getD "default" ∧
      ∀ u ∈ suggestCandidates table s,
        collRank u.priority ≤ collRank t.priority ∧
        (collRank u.priority = collRank t.priority → t.createdAt ≤ u.createdAt)) := by
  constructor
  · unfold suggestNextTask
    cases hc : suggestCandidates table s with
    | nil => simp
    | cons c cs =>
      obtain ⟨t, heq, _, _, _⟩ := bestStep_foldl_some cs c
      simp [List.foldl, bestStep, heq]
  · intro t ht
    unfold suggestNextTask at ht
    rcases hc : suggestCandidates table s with _ | ⟨c, cs⟩
    · rw [hc] at ht
      simp at ht
    · obtain ⟨t', heq, hmem, hdom, hall⟩ := bestStep_foldl_some cs c
      have hstep : (c :: cs).foldl bestStep none = cs.foldl bestStep (some c) := rfl
      rw [hc, hstep, heq] at ht
      obtain rfl : t' = t := by injection ht
      have htmem : t' ∈ c :: cs := by
        rcases hmem with h | h
        · simp [h]
        · simp [h]
      have htfull : t' ∈ suggestCandidates table s := by
        rw [hc]
        exact htmem
      have hfilter := List.mem_filter.mp htfull
      have hprops := of_decide_eq_true hfilter.2
      refine ⟨htmem, hprops.2, ?_, ?_, hprops.1, ?_⟩
      · rcases hprops.2 with h | h <;> simp [h]
      · rcases hprops.2 with h | h <;> simp [h]
      · intro u hu
        rcases List.mem_cons.mp hu with h | h
        · exact h ▸ hdom
        · exact hall u h

/-- Witness for C5's amended theorem: on the demo table the suggestion is
the medium-priority task, whose label is first in descending text order;
it is a pending task, neither completed nor cancelled. -/
theorem suggest_next_task_amended_witness :
    suggestNextTask demoTasks { currentProjectId := some "p1" } = some demoTaskA ∧
    demoTaskA.status ≠ .completed ∧ demoTaskA.status ≠ .cancelled :=
  ⟨by decide,
   ((suggest_next_task_amended demoTasks { currentProjectId := some "p1" }).2
      demoTaskA (by decide)).2.2.1,
   ((suggest_next_task_amended demoTasks { currentProjectId := some "p1" }).2
      demoTaskA (by decide)).2.2.2.1⟩

end AgentCortex
